import Mathlib

set_option linter.unusedVariables false

/-!
Verification development for the mcp-webresearch scraper (src/index.ts).

The source is a single JavaScript/TypeScript file.  We give a shallow
embedding of its retry policy, its four per-engine search pipelines, the
process-wide result store, and the two externally facing handlers (the
HTTP `/search` endpoint and the tool-invocation handler).

Modelling conventions:
- Asynchronous operations whose outcomes depend on the outside world
  (page navigation, DOM contents, timestamps, uuid generation, file
  writes) are supplied as oracles in a `World` structure; the embedded
  functions are deterministic in those oracles.
- A JavaScript thrown error is `Except.error`; a returned value is
  `Except.ok`.
- JS objects built by the extractors are `ResultRecord`s whose optional
  fields (`type`, `timestamp`, `authors`, `journal`) are `Option String`
  (`none` = the field is absent on the JS object).
- Machine time (the `delay` between retry attempts, `setTimeout`) is not
  modelled: it has no effect on values or control flow.
-/

/-- Errors observable from `withRetry` (src/index.ts:191-206): either a
re-raised operation error, or the `"Max retries reached"` error thrown
after the loop. -/
inductive RetryError (ε : Type) where
  | opError : ε → RetryError ε
  | maxRetriesReached : RetryError ε
deriving Repr, DecidableEq

/-- The loop body of `withRetry` (src/index.ts:193-204).  `op k` is the
outcome of the k-th invocation of `operation` (0-based).  The first
argument of the recursion is `maxRetries - attempt` (the JS loop runs
while `attempt < maxRetries`); `calls` counts invocations made so far.
Returns the JS function's outcome together with the total number of
invocations of `operation`. -/
def withRetryAux (op : Nat → Except ε α) :
    Nat → Nat → Except (RetryError ε) α × Nat
  | 0, calls => (.error .maxRetriesReached, calls)
  | remaining + 1, calls =>
    match op calls with
    | .ok v => (.ok v, calls + 1)
    | .error e =>
      -- after `attempt++`, the JS code rethrows iff `attempt === maxRetries`
      if remaining = 0 then (.error (.opError e), calls + 1)
      else withRetryAux op remaining (calls + 1)

/-- `withRetry(operation, maxRetries = 3, delay = 1000)`
(src/index.ts:191-206).  The fixed `delay` between attempts is a pure
time effect and is not modelled. -/
def withRetry (op : Nat → Except ε α) (maxRetries : Nat) :
    Except (RetryError ε) α × Nat :=
  withRetryAux op maxRetries 0

/-- One extracted search hit, as built by the in-page extractors and by
`addResult` (src/index.ts:60-62).  `type` and `timestamp` are `none` on
the raw extracted tuples and `some _` on the stamped records pushed to
the global `results` array; `authors`/`journal` exist only on PubMed
records. -/
structure ResultRecord where
  type : Option String := none
  title : String := ""
  url : String := ""
  snippet : String := ""
  authors : Option String := none
  journal : Option String := none
  timestamp : Option String := none
deriving Repr, DecidableEq

/-- `addResult` (src/index.ts:60-62): push onto the global `results`. -/
def addResult (store : List ResultRecord) (r : ResultRecord) : List ResultRecord :=
  store ++ [r]

/-- `results.length = 0` (src/index.ts:296): clear the global store. -/
def resetStore (_store : List ResultRecord) : List ResultRecord := []

/-- Stamping applied by every `forEach(addResult ...)` loop, e.g.
src/index.ts:82-88: `{ type, ...result, timestamp }`. -/
def stamp (tag now : String) (r : ResultRecord) : ResultRecord :=
  { r with type := some tag, timestamp := some now }

/-- A `.tF2Cxc` container on the Google results page
(src/index.ts:69-78).  Each field is the relevant descendant element if
it matched: `titleEl` the text of `.LC20lb`, `urlEl` the `href` property
of `.yuRUbf > a`, `snippetEl` the text of `.VwiCzo`. -/
structure GoogleEl where
  titleEl : Option String := none
  urlEl : Option String := none
  snippetEl : Option String := none
deriving Repr, DecidableEq

/-- The record built for one Google container (src/index.ts:73-77):
`titleEl?.textContent || ''` etc. -/
def googleExtractOne (el : GoogleEl) : ResultRecord :=
  { title := el.titleEl.getD ""
    url := el.urlEl.getD ""
    snippet := el.snippetEl.getD "" }

/-- `Array.from(document.querySelectorAll('.tF2Cxc')).map(...)`
(src/index.ts:69). -/
def googleExtract (els : List GoogleEl) : List ResultRecord :=
  els.map googleExtractOne

/-- A DuckDuckGo result container (src/index.ts:100-109).  `titleEl` and
`urlEl` come from the same selector `a.result__a`: `titleEl` is its text,
`urlEl` its `href` property; `snippetEl` is the text of
`.result__snippet`. -/
structure DuckEl where
  titleEl : Option String := none
  urlEl : Option String := none
  snippetEl : Option String := none
deriving Repr, DecidableEq

/-- The record built for one DuckDuckGo container (src/index.ts:105-109):
`titleEl?.textContent.trim() || ''`, `urlEl?.href || ''`,
`snippetEl?.textContent.trim() || ''`. -/
def duckExtractOne (el : DuckEl) : ResultRecord :=
  { title := (el.titleEl.map String.trim).getD ""
    url := el.urlEl.getD ""
    snippet := (el.snippetEl.map String.trim).getD "" }

/-- The DuckDuckGo container map (src/index.ts:100). -/
def duckExtract (els : List DuckEl) : List ResultRecord :=
  els.map duckExtractOne

/-- A YouTube `ytd-video-renderer` container (src/index.ts:131-141).
`titleEl` is the text of `#video-title`, `urlAttr` its `href` attribute
(`getAttribute` can return the empty string), `snippetEl` the text of
`#description-text`. -/
structure YouTubeEl where
  titleEl : Option String := none
  urlAttr : Option String := none
  snippetEl : Option String := none
deriving Repr, DecidableEq

/-- The record built for one YouTube container (src/index.ts:136-140).
The JS is `url ? \x7bprefix\x7d${url} : ''`: a truthy (present and
non-empty) href is always prefixed with the origin, with no check for an
existing scheme. -/
def youtubeExtractOne (el : YouTubeEl) : ResultRecord :=
  { title := (el.titleEl.map String.trim).getD ""
    url :=
      match el.urlAttr with
      | some u => if u = "" then "" else "https://www.youtube.com" ++ u
      | none => ""
    snippet := (el.snippetEl.map String.trim).getD "" }

/-- The YouTube container map (src/index.ts:131). -/
def youtubeExtract (els : List YouTubeEl) : List ResultRecord :=
  els.map youtubeExtractOne

/-- A PubMed `.pubmed-citation` container (src/index.ts:163-177).
`linkAttr` is the `href` attribute of `.docsum-title > a`. -/
structure PubMedEl where
  titleEl : Option String := none
  linkAttr : Option String := none
  authorsEl : Option String := none
  journalEl : Option String := none
  snippetEl : Option String := none
deriving Repr, DecidableEq

/-- The record built for one PubMed container (src/index.ts:170-176):
`linkEl?.getAttribute('href') ? \x7bprefix\x7d... : ''` — again an
unconditional origin prefix on any truthy href. -/
def pubmedExtractOne (el : PubMedEl) : ResultRecord :=
  { title := (el.titleEl.map String.trim).getD ""
    url :=
      match el.linkAttr with
      | some u => if u = "" then "" else "https://pubmed.ncbi.nlm.nih.gov" ++ u
      | none => ""
    authors := some ((el.authorsEl.map String.trim).getD "")
    journal := some ((el.journalEl.map String.trim).getD "")
    snippet := (el.snippetEl.map String.trim).getD "" }

/-- The PubMed container map (src/index.ts:163). -/
def pubmedExtract (els : List PubMedEl) : List ResultRecord :=
  els.map pubmedExtractOne

/-- `performGoogleSearch` (src/index.ts:65-91).  `nav` is the outcome of
the single `safePageNavigation` call made by this invocation (which
rethrows its error, src/index.ts:50-57); `els` is what `page.evaluate`
finds; `now` is `new Date().toISOString()` at append time; `store` is
the global `results` array on entry.  On success returns the raw
extracted tuples (`return searchResults`, src/index.ts:90) together with
the updated store, to which one stamped copy of each tuple was pushed
(src/index.ts:82-88). -/
def performGoogleSearch (query : String) (nav : Except String Unit)
    (els : List GoogleEl) (now : String) (store : List ResultRecord) :
    Except String (List ResultRecord × List ResultRecord) :=
  match nav with
  | .error e => .error e
  | .ok _ =>
    let searchResults := googleExtract els
    .ok (searchResults,
         List.foldl addResult store (searchResults.map (stamp "google" now)))

/-- `performDuckDuckGoSearch` (src/index.ts:94-122): same shape as
Google with the DuckDuckGo selectors and the `'duckduckgo'` tag. -/
def performDuckDuckGoSearch (query : String) (nav : Except String Unit)
    (els : List DuckEl) (now : String) (store : List ResultRecord) :
    Except String (List ResultRecord × List ResultRecord) :=
  match nav with
  | .error e => .error e
  | .ok _ =>
    let rows := duckExtract els
    .ok (rows, List.foldl addResult store (rows.map (stamp "duckduckgo" now)))

/-- `performYouTubeSearch` (src/index.ts:125-152). -/
def performYouTubeSearch (query : String) (nav : Except String Unit)
    (els : List YouTubeEl) (now : String) (store : List ResultRecord) :
    Except String (List ResultRecord × List ResultRecord) :=
  match nav with
  | .error e => .error e
  | .ok _ =>
    let rows := youtubeExtract els
    .ok (rows, List.foldl addResult store (rows.map (stamp "youtube" now)))

/-- `performPubMedSearch` (src/index.ts:155-188).  The fixed
publication-type filter clause conjoined to the query
(src/index.ts:157-158) only affects the navigated URL, which is part of
the `nav` oracle here. -/
def performPubMedSearch (query : String) (nav : Except String Unit)
    (els : List PubMedEl) (now : String) (store : List ResultRecord) :
    Except String (List ResultRecord × List ResultRecord) :=
  match nav with
  | .error e => .error e
  | .ok _ =>
    let rows := pubmedExtract els
    .ok (rows, List.foldl addResult store (rows.map (stamp "pubmed" now)))

/-- Environment oracles for one top-level request: `navX k` is the
outcome the k-th navigation attempt against engine X would have,
`xEls` what the extractor would find on the loaded page, `now` the
timestamp clock, `freshId` the uuid `uuidv4()` would generate, and
`writeOk` whether the `fs.writeFile` of the snapshot succeeds. -/
structure World where
  navGoogle : Nat → Except String Unit
  navDuck : Nat → Except String Unit
  navYouTube : Nat → Except String Unit
  navPubMed : Nat → Except String Unit
  googleEls : List GoogleEl := []
  duckEls : List DuckEl := []
  ytEls : List YouTubeEl := []
  pmEls : List PubMedEl := []
  now : String := "1970-01-01T00:00:00.000Z"
  freshId : String := "uuid-0"
  writeOk : Bool := true

/-- JavaScript truthiness of a request-body string field (`!query`,
src/index.ts:292): `none` models an absent field, and the empty string
is falsy. -/
def truthy : Option String → Bool
  | none => false
  | some s => !s.isEmpty

/-- One response the HTTP handler attempts to send.  `okJson` is
`res.json({id, query, engine, results})` (src/index.ts:344-349, status
200), `badRequest e` is `res.status(400).json({error: e})`,
`serverError m` is `res.status(500).json({error: 'Search failed',
message: m})` (src/index.ts:352), and `writeError` is the
`res.status(500).json({error: 'Failed to write search results to
file'})` attempted inside the `fs.writeFile` callback
(src/index.ts:338). -/
inductive HResp where
  | badRequest : String → HResp
  | okJson : String → String → String → List ResultRecord → HResp
  | serverError : String → HResp
  | writeError : HResp
deriving Repr, DecidableEq

/-- Outcome of one HTTP `/search` request: the responses the handler
attempts to send in order (HTTP delivers only the first; any later
attempt fails with headers-already-sent), the global `results` store
after the request, and how many times `safePageNavigation` was
invoked. -/
structure HandlerOutcome where
  responses : List HResp
  store : List ResultRecord
  navCount : Nat
deriving Repr, DecidableEq

/-- The engine dispatch of the HTTP handler (`switch (engine)`,
src/index.ts:300-315), run against the just-cleared store; `none` is the
`default` branch. -/
def runEngine (engine query : String) (w : World) :
    Option (Except String (List ResultRecord × List ResultRecord)) :=
  if engine = "google" then
    some (performGoogleSearch query (w.navGoogle 0) w.googleEls w.now [])
  else if engine = "duckduckgo" then
    some (performDuckDuckGoSearch query (w.navDuck 0) w.duckEls w.now [])
  else if engine = "youtube" then
    some (performYouTubeSearch query (w.navYouTube 0) w.ytEls w.now [])
  else if engine = "pubmed" then
    some (performPubMedSearch query (w.navPubMed 0) w.pmEls w.now [])
  else none

/-- The `app.post('/search')` handler (src/index.ts:289-354).
Control flow mirrors the source: reject if `!query || !engine`; clear
the global store (`results.length = 0`); dispatch on `engine`, the
default branch answering 400 with the store already cleared; on a
pipeline error answer 500.  On success the handler starts the
asynchronous `fs.writeFile` and then synchronously sends the 200
`res.json` with the global store, so the 200 is always the first
attempted response; the write callback runs afterwards and, on failure,
logs and attempts the `writeError` 500. -/
def searchHandler (query engine : Option String) (w : World)
    (store : List ResultRecord) : HandlerOutcome :=
  if !(truthy query && truthy engine) then
    ⟨[.badRequest "Query and engine are required"], store, 0⟩
  else
    let q := query.getD ""
    let e := engine.getD ""
    match runEngine e q w with
    | none => ⟨[.badRequest "Invalid search engine"], [], 0⟩
    | some (.error msg) => ⟨[.serverError msg], [], 1⟩
    | some (.ok (_, store1)) =>
      ⟨HResp.okJson w.freshId q e store1 ::
        (if w.writeOk then [] else [HResp.writeError]), store1, 1⟩

/-- A tool-invocation response (src/index.ts:209-282): `success rs` is
the non-error response whose text is the pretty-printed JSON of the
pipeline's return value `rs`; `failure msg` is a response with
`isError: true` and text `msg`. -/
inductive ToolResult where
  | success : List ResultRecord → ToolResult
  | failure : String → ToolResult
deriving Repr, DecidableEq

/-- Outcome of one tool invocation: the response, the global store
afterwards, and the number of `safePageNavigation` invocations. -/
structure ToolOutcome where
  result : ToolResult
  store : List ResultRecord
  navCount : Nat
deriving Repr, DecidableEq

/-- The `message` of the error object `withRetry` rethrows
(src/index.ts:199 and src/index.ts:205). -/
def retryErrorMessage : RetryError String → String
  | .opError e => e
  | .maxRetriesReached => "Max retries reached"

/-- One engine case of the tool handler (e.g. src/index.ts:214-227):
`await withRetry(() => performXSearch(query))` with the default
`maxRetries = 3`; a failed attempt leaves the store unchanged, a
successful one returns the raw rows and the updated store. -/
def toolCase (tag : String)
    (op : Nat → Except String (List ResultRecord × List ResultRecord))
    (store : List ResultRecord) : ToolOutcome :=
  match withRetry op 3 with
  | (.ok (rows, store1), calls) => ⟨.success rows, store1, calls⟩
  | (.error e, calls) =>
    ⟨.failure ("Failed to perform " ++ tag ++ " search: " ++ retryErrorMessage e),
     store, calls⟩

/-- The tool request handler (`server.setRequestHandler`,
src/index.ts:209-282), dispatching on the tool name.  Note it never
clears the global store: every attempt starts from the store it was
given. -/
def toolHandler (name query : String) (w : World)
    (store : List ResultRecord) : ToolOutcome :=
  if name = "search_google" then
    toolCase "Google"
      (fun k => performGoogleSearch query (w.navGoogle k) w.googleEls w.now store) store
  else if name = "search_duckduckgo" then
    toolCase "DuckDuckGo"
      (fun k => performDuckDuckGoSearch query (w.navDuck k) w.duckEls w.now store) store
  else if name = "search_youtube" then
    toolCase "YouTube"
      (fun k => performYouTubeSearch query (w.navYouTube k) w.ytEls w.now store) store
  else if name = "search_pubmed" then
    toolCase "PubMed"
      (fun k => performPubMedSearch query (w.navPubMed k) w.pmEls w.now store) store
  else ⟨.failure ("Tool " ++ name ++ " not found"), store, 0⟩

/-- The serialized payload built by the HTTP handler
(src/index.ts:321-326): `{id: uuidv4(), query, engine, results}`, used
both for the on-disk snapshot and the 200 response body. -/
structure SnapshotData where
  id : String
  query : String
  engine : String
  results : List ResultRecord
deriving Repr, DecidableEq

/-- Building the snapshot payload from the current store
(src/index.ts:318-326); `freshId` is the `uuidv4()` drawn by this
call. -/
def snapshotData (freshId query engine : String)
    (store : List ResultRecord) : SnapshotData :=
  ⟨freshId, query, engine, store⟩

/-- A concrete operation failing on its first two invocations and
succeeding with 42 on every later one, for evaluating the retry-policy
theorems. -/
def opFailTwice : Nat → Except String Nat :=
  fun k => if k = 0 then .error "e0" else
           if k = 1 then .error "e1" else .ok 42

/-- A concrete operation failing on every invocation, with the
invocation index as the error message. -/
def opAlwaysFail : Nat → Except String Nat :=
  fun k => .error (toString k)

/-- A concrete operation succeeding with 7 on every invocation. -/
def opConstOk : Nat → Except String Nat := fun _ => .ok 7

/-! ## Concrete worlds and records for evaluating the handler claims -/

/-- A world where every navigation succeeds and the Google page has one
result container. -/
def wAllOk : World :=
  { navGoogle := fun _ => .ok ()
    navDuck := fun _ => .ok ()
    navYouTube := fun _ => .ok ()
    navPubMed := fun _ => .ok ()
    googleEls := [⟨some "T", some "U", some "S"⟩] }

/-- A world where Google navigation fails on its first two attempts and
succeeds from the third on. -/
def wNavFailTwice : World :=
  { navGoogle := fun k => if k = 0 then .error "e0" else
                          if k = 1 then .error "e1" else .ok ()
    navDuck := fun _ => .ok ()
    navYouTube := fun _ => .ok ()
    navPubMed := fun _ => .ok ()
    googleEls := [⟨some "T", some "U", some "S"⟩] }

/-- A world where navigation succeeds but the snapshot write to disk
fails. -/
def wWriteFail : World :=
  { navGoogle := fun _ => .ok ()
    navDuck := fun _ => .ok ()
    navYouTube := fun _ => .ok ()
    navPubMed := fun _ => .ok ()
    googleEls := [⟨some "T", some "U", some "S"⟩]
    writeOk := false }

/-- A leftover record from an earlier request, used to observe whether
the store is cleared. -/
def rOld : ResultRecord := { title := "old" }

/-! ## Helper lemmas -/

lemma foldl_addResult (s l : List ResultRecord) :
    List.foldl addResult s l = s ++ l := by
  induction l generalizing s with
  | nil => simp
  | cons r t ih => simp [addResult, ih]

lemma withRetryAux_allFail {ε α : Type} (op : Nat → Except ε α) (f : Nat → ε)
    (hf : ∀ i, op i = .error (f i)) :
    ∀ m c, 0 < m →
      withRetryAux op m c = (.error (.opError (f (c + m - 1))), c + m) := by
  intro m
  induction m with
  | zero => intro c h; exact absurd h (Nat.lt_irrefl 0)
  | succ r ih =>
    intro c _
    by_cases hr : r = 0
    · subst hr
      simp [withRetryAux, hf c]
    · have h1 : c + 1 + r - 1 = c + (r + 1) - 1 := by omega
      have h2 : c + 1 + r = c + (r + 1) := by omega
      have := ih (c + 1) (Nat.pos_of_ne_zero hr)
      rw [h1, h2] at this
      simp [withRetryAux, hf c, hr, this]

lemma withRetryAux_ok {ε α : Type} (op : Nat → Except ε α) :
    ∀ m c v n, withRetryAux op m c = (.ok v, n) →
      0 < n ∧ op (n - 1) = .ok v := by
  intro m
  induction m with
  | zero => intro c v n h; simp [withRetryAux] at h
  | succ r ih =>
    intro c v n h
    cases hop : op c with
    | ok w =>
      simp [withRetryAux, hop] at h
      obtain ⟨hw, hn⟩ := h
      subst hn
      simpa [hop] using hw
    | error e =>
      by_cases hr : r = 0
      · simp [withRetryAux, hop, hr] at h
      · simp [withRetryAux, hop, hr] at h
        exact ih (c + 1) v n h

/-! ## Claims about the retry policy -/

/-- C1: with `maxAttempts = 3`, an operation failing on its first two
invocations and succeeding on the third makes `withRetry` return the
third invocation's success value after exactly 3 invocations; an
operation failing on every invocation is invoked exactly `maxAttempts`
times and the error of the final invocation is the one re-raised (never
swallowed, never an empty success). -/
theorem withRetry_fail_twice_succeed_and_exhaust {ε α : Type} :
    (∀ (op : Nat → Except ε α) (e0 e1 : ε) (v : α),
      op 0 = .error e0 → op 1 = .error e1 → op 2 = .ok v →
        withRetry op 3 = (.ok v, 3)) ∧
    (∀ (op : Nat → Except ε α) (f : Nat → ε) (m : Nat), 0 < m →
      (∀ i, op i = .error (f i)) →
        withRetry op m = (.error (.opError (f (m - 1))), m)) := by
  constructor
  · intro op e0 e1 v h0 h1 h2
    show withRetryAux op 3 0 = (.ok v, 3)
    simp [withRetryAux, h0, h1, h2]
  · intro op f m hm hf
    show withRetryAux op m 0 = _
    rw [withRetryAux_allFail op f hf m 0 hm]
    simp

theorem withRetry_fail_twice_succeed_and_exhaust_witness :
    withRetry opFailTwice 3 = (.ok 42, 3) ∧
    withRetry opAlwaysFail 2 = (.error (.opError "1"), 2) :=
  ⟨withRetry_fail_twice_succeed_and_exhaust.1 opFailTwice "e0" "e1" 42
     rfl rfl rfl,
   by
    exact withRetry_fail_twice_succeed_and_exhaust.2 opAlwaysFail
      (fun k => toString k) 2 (by decide) (fun i => rfl)⟩

/-- C9: `withRetry` with `maxAttempts = 0` never invokes the operation
and still throws (the `"Max retries reached"` error) rather than
returning an empty success; in general any success value `withRetry`
returns was produced by an actual successful invocation of the
operation (namely the last of the `n` invocations made). -/
theorem withRetry_zero_attempts_still_fails {ε α : Type} :
    (∀ op : Nat → Except ε α,
      withRetry op 0 = (.error .maxRetriesReached, 0)) ∧
    (∀ (op : Nat → Except ε α) (m n : Nat) (v : α),
      withRetry op m = (.ok v, n) → 0 < n ∧ op (n - 1) = .ok v) := by
  constructor
  · intro op; rfl
  · intro op m n v h
    exact withRetryAux_ok op m 0 v n h

theorem withRetry_zero_attempts_still_fails_witness :
    withRetry opConstOk 0 = (.error .maxRetriesReached, 0) ∧
    (0 < 1 ∧ opConstOk 0 = .ok 7) :=
  ⟨withRetry_zero_attempts_still_fails.1 opConstOk,
   by exact withRetry_zero_attempts_still_fails.2 opConstOk 3 1 7 rfl⟩

/-! ## Claims about the extractors -/

/-- C8: every container matching the result-container selector produces
a record (the extractors are per-container maps, so record counts equal
container counts), and a missing field element yields the empty string
for that field rather than omitting the record: a container with all
field elements missing still yields a record whose string fields are all
empty, and a container whose title element is missing while its other
elements matched yields `title = ""` with the other fields populated. -/
theorem extractors_always_produce_record_with_empty_defaults :
    (∀ els : List GoogleEl, (googleExtract els).length = els.length) ∧
    (∀ els : List DuckEl, (duckExtract els).length = els.length) ∧
    (∀ els : List YouTubeEl, (youtubeExtract els).length = els.length) ∧
    (∀ els : List PubMedEl, (pubmedExtract els).length = els.length) ∧
    (googleExtractOne ⟨none, none, none⟩
      = { title := "", url := "", snippet := "" }) ∧
    (duckExtractOne ⟨none, none, none⟩
      = { title := "", url := "", snippet := "" }) ∧
    (youtubeExtractOne ⟨none, none, none⟩
      = { title := "", url := "", snippet := "" }) ∧
    (pubmedExtractOne ⟨none, none, none, none, none⟩
      = { title := "", url := "", snippet := "",
          authors := some "", journal := some "" }) ∧
    (∀ u s : String, googleExtractOne ⟨none, some u, some s⟩
      = { title := "", url := u, snippet := s }) ∧
    (∀ u s : String, duckExtractOne ⟨none, some u, some s⟩
      = { title := "", url := u, snippet := s.trim }) ∧
    (∀ u : String, u ≠ "" → youtubeExtractOne ⟨none, some u, none⟩
      = { title := "", url := "https://www.youtube.com" ++ u,
          snippet := "" }) ∧
    (∀ u : String, u ≠ "" →
      pubmedExtractOne ⟨none, some u, none, none, none⟩
      = { title := "", url := "https://pubmed.ncbi.nlm.nih.gov" ++ u,
          authors := some "", journal := some "", snippet := "" }) := by
  refine ⟨fun els => List.length_map _ _, fun els => List.length_map _ _,
    fun els => List.length_map _ _, fun els => List.length_map _ _,
    rfl, rfl, rfl, rfl, fun u s => rfl, fun u s => rfl, ?_, ?_⟩
  · intro u hu
    simp [youtubeExtractOne, hu]
  · intro u hu
    simp [pubmedExtractOne, hu]

theorem extractors_always_produce_record_with_empty_defaults_witness :
    (googleExtract [⟨none, some "https://a.example/x", some "snip"⟩]).length = 1 ∧
    googleExtractOne ⟨none, some "https://a.example/x", some "snip"⟩
      = { title := "", url := "https://a.example/x", snippet := "snip" } ∧
    ("/watch?v=1" ≠ "") ∧
    youtubeExtractOne ⟨none, some "/watch?v=1", none⟩
      = { title := "", url := "https://www.youtube.com/watch?v=1",
          snippet := "" } ∧
    ("/38000000/" ≠ "") ∧
    pubmedExtractOne ⟨none, some "/38000000/", none, none, none⟩
      = { title := "", url := "https://pubmed.ncbi.nlm.nih.gov/38000000/",
          authors := some "", journal := some "", snippet := "" } :=
  ⟨extractors_always_produce_record_with_empty_defaults.1 _,
   by
    have h := (extractors_always_produce_record_with_empty_defaults.2.2.2.2.2.2.2.2.1)
      "https://a.example/x" "snip"
    simpa using h,
   by decide,
   by
    have h := (extractors_always_produce_record_with_empty_defaults.2.2.2.2.2.2.2.2.2.2.1)
      "/watch?v=1" (by decide)
    exact h.trans (by decide),
   by decide,
   by
    have h := (extractors_always_produce_record_with_empty_defaults.2.2.2.2.2.2.2.2.2.2.2)
      "/38000000/" (by decide)
    exact h.trans (by decide)⟩

/-- C4 counterexample: the claim says an href that already begins with a
scheme is left unchanged, but both the YouTube and the PubMed extractors
prefix the site origin unconditionally on any truthy href, mangling an
absolute URL. -/
theorem origin_prefix_unconditional_cex :
    (youtubeExtractOne ⟨none, some "https://example.com/watch", none⟩).url
      = "https://www.youtube.comhttps://example.com/watch" ∧
    (youtubeExtractOne ⟨none, some "https://example.com/watch", none⟩).url
      ≠ "https://example.com/watch" ∧
    (pubmedExtractOne ⟨none, some "https://example.com/p", none, none, none⟩).url
      = "https://pubmed.ncbi.nlm.nih.govhttps://example.com/p" ∧
    (pubmedExtractOne ⟨none, some "https://example.com/p", none, none, none⟩).url
      ≠ "https://example.com/p" :=
  ⟨rfl, by decide, rfl, by decide⟩

/-- C4 (amended): in the video and literature extractors a present,
non-empty href is always prefixed with the known site origin — also when
it already begins with a scheme — while a missing href, or an href equal
to the empty string (falsy in JS), yields `url = ""`. -/
theorem origin_prefix_applied_whenever_href_truthy :
    (∀ (el : YouTubeEl) (u : String), el.urlAttr = some u → u ≠ "" →
      (youtubeExtractOne el).url = "https://www.youtube.com" ++ u) ∧
    (∀ el : YouTubeEl, el.urlAttr = none ∨ el.urlAttr = some "" →
      (youtubeExtractOne el).url = "") ∧
    (∀ (el : PubMedEl) (u : String), el.linkAttr = some u → u ≠ "" →
      (pubmedExtractOne el).url = "https://pubmed.ncbi.nlm.nih.gov" ++ u) ∧
    (∀ el : PubMedEl, el.linkAttr = none ∨ el.linkAttr = some "" →
      (pubmedExtractOne el).url = "") := by
  refine ⟨?_, ?_, ?_, ?_⟩
  · intro el u hel hu
    simp [youtubeExtractOne, hel, hu]
  · intro el hel
    rcases hel with h | h <;> simp [youtubeExtractOne, h]
  · intro el u hel hu
    simp [pubmedExtractOne, hel, hu]
  · intro el hel
    rcases hel with h | h <;> simp [pubmedExtractOne, h]

theorem origin_prefix_applied_whenever_href_truthy_witness :
    (youtubeExtractOne ⟨none, some "https://example.com/w", none⟩).url
      = "https://www.youtube.com" ++ "https://example.com/w" ∧
    (youtubeExtractOne ⟨some "t", none, some "s"⟩).url = "" ∧
    (pubmedExtractOne ⟨none, some "", none, none, none⟩).url = "" :=
  ⟨origin_prefix_applied_whenever_href_truthy.1
_ "https://example.com/w" rfl (by decide),
   origin_prefix_applied_whenever_href_truthy.2.1 _ (Or.inl rfl),
   origin_prefix_applied_whenever_href_truthy.2.2.2 _ (Or.inr rfl)⟩

/-! ## Claims about the pipeline runs and the result store -/

/-- C5 counterexample: on a successful run the records appended to the
store are stamped, but the rows the pipeline itself returns (`return
searchResults`, src/index.ts:90) are the raw extracted field tuples:
they carry neither a `sourceType` nor a `capturedAt` stamp. -/
theorem pipeline_returns_unstamped_rows_cex :
    (performGoogleSearch "q" (.ok ()) [⟨some "T", some "U", some "S"⟩]
        "2024-01-01T00:00:00.000Z" []).toOption.map
      (fun p => p.1.all fun r => r.type.isSome && r.timestamp.isSome)
      = some false ∧
    (performGoogleSearch "q" (.ok ()) [⟨some "T", some "U", some "S"⟩]
        "2024-01-01T00:00:00.000Z" []).toOption.map
      (fun p => p.2.all fun r => r.type.isSome && r.timestamp.isSome)
      = some true :=
  ⟨rfl, rfl⟩

/-- C5 (amended): every record a pipeline run appends to the
ResultStore carries `sourceType` (the engine tag) and `capturedAt` (the
append-time clock), and a successful run appends exactly the stamped
copies of the rows it extracted, in order; the sequence the run itself
returns, however, is the raw extracted field tuples, carrying neither
stamp. -/
theorem store_records_stamped_returned_rows_raw :
    (∀ (query : String) (nav : Except String Unit) (els : List GoogleEl)
        (now : String) (store rows store1 : List ResultRecord),
      performGoogleSearch query nav els now store = .ok (rows, store1) →
        store1 = store ++ rows.map (stamp "google" now) ∧
        (∀ r ∈ store1.drop store.length,
          r.type = some "google" ∧ r.timestamp = some now) ∧
        (∀ r ∈ rows, r.type = none ∧ r.timestamp = none)) ∧
    (∀ (query : String) (nav : Except String Unit) (els : List DuckEl)
        (now : String) (store rows store1 : List ResultRecord),
      performDuckDuckGoSearch query nav els now store = .ok (rows, store1) →
        store1 = store ++ rows.map (stamp "duckduckgo" now) ∧
        (∀ r ∈ store1.drop store.length,
          r.type = some "duckduckgo" ∧ r.timestamp = some now) ∧
        (∀ r ∈ rows, r.type = none ∧ r.timestamp = none)) ∧
    (∀ (query : String) (nav : Except String Unit) (els : List YouTubeEl)
        (now : String) (store rows store1 : List ResultRecord),
      performYouTubeSearch query nav els now store = .ok (rows, store1) →
        store1 = store ++ rows.map (stamp "youtube" now) ∧
        (∀ r ∈ store1.drop store.length,
          r.type = some "youtube" ∧ r.timestamp = some now) ∧
        (∀ r ∈ rows, r.type = none ∧ r.timestamp = none)) ∧
    (∀ (query : String) (nav : Except String Unit) (els : List PubMedEl)
        (now : String) (store rows store1 : List ResultRecord),
      performPubMedSearch query nav els now store = .ok (rows, store1) →
        store1 = store ++ rows.map (stamp "pubmed" now) ∧
        (∀ r ∈ store1.drop store.length,
          r.type = some "pubmed" ∧ r.timestamp = some now) ∧
        (∀ r ∈ rows, r.type = none ∧ r.timestamp = none)) := by
  refine ⟨?_, ?_, ?_, ?_⟩ <;>
  · intro query nav els now store rows store1 h
    cases nav with
    | error e =>
      simp [performGoogleSearch, performDuckDuckGoSearch,
        performYouTubeSearch, performPubMedSearch] at h
    | ok u =>
      simp only [performGoogleSearch, performDuckDuckGoSearch,
        performYouTubeSearch, performPubMedSearch, foldl_addResult,
        Except.ok.injEq, Prod.mk.injEq] at h
      obtain ⟨hrows, hstore⟩ := h
      subst hrows
      subst hstore
      refine ⟨rfl, ?_, ?_⟩
      · intro r hr
        rw [List.drop_left] at hr
        obtain ⟨a, _, rfl⟩ := List.mem_map.1 hr
        exact ⟨rfl, rfl⟩
      · intro r hr
        simp only [googleExtract, duckExtract, youtubeExtract,
          pubmedExtract] at hr
        obtain ⟨el, _, rfl⟩ := List.mem_map.1 hr
        first
        | exact ⟨rfl, rfl⟩

theorem store_records_stamped_returned_rows_raw_witness :
    performGoogleSearch "q" (.ok ()) [⟨some "T", some "U", some "S"⟩]
        "now0" []
      = .ok ([{ title := "T", url := "U", snippet := "S" }],
             [{ type := some "google", title := "T", url := "U",
                snippet := "S", timestamp := some "now0" }]) ∧
    ([{ type := some "google", title := "T", url := "U", snippet := "S",
        timestamp := some "now0" }] : List ResultRecord)
      = [] ++ [({ title := "T", url := "U", snippet := "S" }
          : ResultRecord)].map (stamp "google" "now0") :=
  ⟨rfl,
   (store_records_stamped_returned_rows_raw.1 "q" (.ok ())
      [⟨some "T", some "U", some "S"⟩] "now0" []
      [{ title := "T", url := "U", snippet := "S" }]
      [{ type := some "google", title := "T", url := "U", snippet := "S",
         timestamp := some "now0" }] rfl).1⟩

/-! ## Claims about the two entry points -/

/-- C2 counterexample: under a navigation oracle that fails once and
then succeeds, the HTTP `/search` handler invokes navigation exactly
once and surfaces a 500 immediately, while the tool handler — whose
`withRetry` wrapping the claim ascribes to every entry point — succeeds
on its second attempt.  The HTTP path therefore does not wrap the
navigation step in the RetryPolicy. -/
theorem httpSearch_does_not_retry_navigation_cex :
    searchHandler (some "q") (some "google") wNavFailTwice []
      = ⟨[.serverError "e0"], [], 1⟩ ∧
    (toolHandler "search_google" "q" wNavFailTwice []).result
      = .success [{ title := "T", url := "U", snippet := "S" }] ∧
    (toolHandler "search_google" "q" wNavFailTwice []).navCount = 3 :=
  ⟨rfl, rfl, rfl⟩

/-- C2 (amended): only pipeline runs reached through the
tool-invocation handler are wrapped in the RetryPolicy (the whole
pipeline call, navigation included, up to 3 attempts); the HTTP
endpoint invokes the pipeline — and hence navigation — exactly once per
request and surfaces a navigation failure immediately as a 500. -/
theorem retry_only_on_tool_path :
    (∀ (q : String) (w : World) (store : List ResultRecord) (msg : String),
      truthy (some q) = true → w.navGoogle 0 = .error msg →
        searchHandler (some q) (some "google") w store
          = ⟨[.serverError msg], [], 1⟩) ∧
    (∀ (q : String) (w : World) (store : List ResultRecord) (msg : String),
      truthy (some q) = true → w.navDuck 0 = .error msg →
        searchHandler (some q) (some "duckduckgo") w store
          = ⟨[.serverError msg], [], 1⟩) ∧
    (∀ (q : String) (w : World) (store : List ResultRecord) (msg : String),
      truthy (some q) = true → w.navYouTube 0 = .error msg →
        searchHandler (some q) (some "youtube") w store
          = ⟨[.serverError msg], [], 1⟩) ∧
    (∀ (q : String) (w : World) (store : List ResultRecord) (msg : String),
      truthy (some q) = true → w.navPubMed 0 = .error msg →
        searchHandler (some q) (some "pubmed") w store
          = ⟨[.serverError msg], [], 1⟩) ∧
    (∀ (q : String) (w : World) (store : List ResultRecord) (e0 e1 : String),
      w.navGoogle 0 = .error e0 → w.navGoogle 1 = .error e1 →
      w.navGoogle 2 = .ok () →
        toolHandler "search_google" q w store
          = ⟨.success (googleExtract w.googleEls),
             store ++ (googleExtract w.googleEls).map (stamp "google" w.now),
             3⟩) ∧
    (∀ (q : String) (w : World) (store : List ResultRecord) (e0 e1 : String),
      w.navDuck 0 = .error e0 → w.navDuck 1 = .error e1 →
      w.navDuck 2 = .ok () →
        toolHandler "search_duckduckgo" q w store
          = ⟨.success (duckExtract w.duckEls),
             store ++ (duckExtract w.duckEls).map (stamp "duckduckgo" w.now),
             3⟩) ∧
    (∀ (q : String) (w : World) (store : List ResultRecord) (e0 e1 : String),
      w.navYouTube 0 = .error e0 → w.navYouTube 1 = .error e1 →
      w.navYouTube 2 = .ok () →
        toolHandler "search_youtube" q w store
          = ⟨.success (youtubeExtract w.ytEls),
             store ++ (youtubeExtract w.ytEls).map (stamp "youtube" w.now),
             3⟩) ∧
    (∀ (q : String) (w : World) (store : List ResultRecord) (e0 e1 : String),
      w.navPubMed 0 = .error e0 → w.navPubMed 1 = .error e1 →
      w.navPubMed 2 = .ok () →
        toolHandler "search_pubmed" q w store
          = ⟨.success (pubmedExtract w.pmEls),
             store ++ (pubmedExtract w.pmEls).map (stamp "pubmed" w.now),
             3⟩) := by
  refine ⟨?_, ?_, ?_, ?_, ?_, ?_, ?_, ?_⟩
  · intro q w store msg hq hnav
    have hq' : q.isEmpty = false := by simpa [truthy] using hq
    have he' : ("google" : String).isEmpty = false := by decide
    simp [searchHandler, hq', he', runEngine, performGoogleSearch, hnav, truthy]
  · intro q w store msg hq hnav
    have hq' : q.isEmpty = false := by simpa [truthy] using hq
    have he' : ("duckduckgo" : String).isEmpty = false := by decide
    simp [searchHandler, hq', he', runEngine, performDuckDuckGoSearch, hnav, truthy]
  · intro q w store msg hq hnav
    have hq' : q.isEmpty = false := by simpa [truthy] using hq
    have he' : ("youtube" : String).isEmpty = false := by decide
    simp [searchHandler, hq', he', runEngine, performYouTubeSearch, hnav, truthy]
  · intro q w store msg hq hnav
    have hq' : q.isEmpty = false := by simpa [truthy] using hq
    have he' : ("pubmed" : String).isEmpty = false := by decide
    simp [searchHandler, hq', he', runEngine, performPubMedSearch, hnav, truthy]
  · intro q w store e0 e1 h0 h1 h2
    simp [toolHandler, toolCase, withRetry, withRetryAux,
      performGoogleSearch, h0, h1, h2, foldl_addResult]
  · intro q w store e0 e1 h0 h1 h2
    simp [toolHandler, toolCase, withRetry, withRetryAux,
      performDuckDuckGoSearch, h0, h1, h2, foldl_addResult]
  · intro q w store e0 e1 h0 h1 h2
    simp [toolHandler, toolCase, withRetry, withRetryAux,
      performYouTubeSearch, h0, h1, h2, foldl_addResult]
  · intro q w store e0 e1 h0 h1 h2
    simp [toolHandler, toolCase, withRetry, withRetryAux,
      performPubMedSearch, h0, h1, h2, foldl_addResult]

theorem retry_only_on_tool_path_witness :
    searchHandler (some "q") (some "google") wNavFailTwice []
      = ⟨[.serverError "e0"], [], 1⟩ ∧
    toolHandler "search_google" "q" wNavFailTwice []
      = ⟨.success (googleExtract wNavFailTwice.googleEls),
         [] ++ (googleExtract wNavFailTwice.googleEls).map
           (stamp "google" wNavFailTwice.now),
         3⟩ :=
  ⟨retry_only_on_tool_path.1 "q" wNavFailTwice [] "e0" rfl rfl,
   retry_only_on_tool_path.2.2.2.2.1 "q" wNavFailTwice [] "e0" "e1"
     rfl rfl rfl⟩

/-- C3 counterexample: when the snapshot write fails, the handler does
not merely log — the `fs.writeFile` callback (src/index.ts:337-339)
also attempts a 500 error response, so the sequence of attempted
responses is not the plain 200. -/
theorem writeFailure_attempts_error_response_cex :
    (searchHandler (some "q") (some "google") wWriteFail []).responses
      = [.okJson "uuid-0" "q" "google"
           [{ type := some "google", title := "T", url := "U",
              snippet := "S",
              timestamp := some "1970-01-01T00:00:00.000Z" }],
         .writeError] ∧
    HResp.writeError
      ∈ (searchHandler (some "q") (some "google") wWriteFail []).responses :=
  ⟨rfl, by decide⟩

/-- C3 (amended): after a successful pipeline run the 200 response with
the in-memory results is sent before the asynchronous write completes,
so it is always the first — hence the delivered — response, whatever
the write outcome; a write failure is logged and additionally triggers
a 500 attempt from the write callback, which cannot reach the client
because the 200 was already sent. -/
theorem writeFailure_client_still_gets_ok :
    ∀ (q e : String) (w : World) (store rows store1 : List ResultRecord),
      truthy (some q) = true → truthy (some e) = true →
      runEngine e q w = some (.ok (rows, store1)) →
      (searchHandler (some q) (some e) w store).responses.head?
        = some (.okJson w.freshId q e store1) ∧
      (w.writeOk = true →
        (searchHandler (some q) (some e) w store).responses
          = [.okJson w.freshId q e store1]) ∧
      (w.writeOk = false →
        (searchHandler (some q) (some e) w store).responses
          = [.okJson w.freshId q e store1, .writeError]) := by
  intro q e w store rows store1 hq he hrun
  have hq' : q.isEmpty = false := by simpa [truthy] using hq
  have he' : e.isEmpty = false := by simpa [truthy] using he
  refine ⟨?_, ?_, ?_⟩
  · simp [searchHandler, hq', he', hrun, truthy]
  · intro hw; simp [searchHandler, hq', he', hrun, truthy, hw]
  · intro hw; simp [searchHandler, hq', he', hrun, truthy, hw]

theorem writeFailure_client_still_gets_ok_witness :
    (searchHandler (some "q") (some "google") wWriteFail []).responses.head?
      = some (.okJson "uuid-0" "q" "google"
          [{ type := some "google", title := "T", url := "U",
             snippet := "S",
             timestamp := some "1970-01-01T00:00:00.000Z" }]) ∧
    (searchHandler (some "q") (some "google") wWriteFail []).responses
      = [.okJson "uuid-0" "q" "google"
           [{ type := some "google", title := "T", url := "U",
              snippet := "S",
              timestamp := some "1970-01-01T00:00:00.000Z" }],
         .writeError] :=
  ⟨(writeFailure_client_still_gets_ok "q" "google" wWriteFail []
      [{ title := "T", url := "U", snippet := "S" }]
      [{ type := some "google", title := "T", url := "U", snippet := "S",
         timestamp := some "1970-01-01T00:00:00.000Z" }]
      rfl rfl rfl).1,
   (writeFailure_client_still_gets_ok "q" "google" wWriteFail []
      [{ title := "T", url := "U", snippet := "S" }]
      [{ type := some "google", title := "T", url := "U", snippet := "S",
         timestamp := some "1970-01-01T00:00:00.000Z" }]
      rfl rfl rfl).2.2 rfl⟩

/-- C6 counterexample: the tool-invocation entry point never clears the
ResultStore — a record left from an earlier request is still at the
front of the store after a tool-handled search, which merely appends. -/
theorem toolHandler_does_not_clear_store_cex :
    (toolHandler "search_google" "q" wAllOk [rOld]).store
      = [rOld,
         { type := some "google", title := "T", url := "U", snippet := "S",
           timestamp := some "1970-01-01T00:00:00.000Z" }] ∧
    (toolHandler "search_google" "q" wAllOk [rOld]).store.head? = some rOld :=
  ⟨rfl, rfl⟩

/-- C6 (amended): the ResultStore is cleared at the start of the
pipeline dispatch only on the HTTP entry point (once its field
validation passes, the request outcome is independent of the prior
store contents); the tool-invocation entry point never clears it.
After a reset followed by any number of appends, the serialized
snapshot contains exactly the appended records in append order, tagged
with the freshly generated id of that snapshot call. -/
theorem httpHandler_clears_store_and_snapshot_exact :
    (∀ (query engine : Option String) (w : World)
        (s1 s2 : List ResultRecord),
      truthy query = true → truthy engine = true →
        searchHandler query engine w s1 = searchHandler query engine w s2) ∧
    (∀ (s rs : List ResultRecord) (fid q e : String),
      snapshotData fid q e (List.foldl addResult (resetStore s) rs)
        = ⟨fid, q, e, rs⟩) := by
  constructor
  · intro query engine w s1 s2 hq he
    simp [searchHandler, hq, he]
  · intro s rs fid q e
    simp [snapshotData, foldl_addResult, resetStore]

theorem httpHandler_clears_store_and_snapshot_exact_witness :
    searchHandler (some "q") (some "google") wAllOk [rOld]
      = searchHandler (some "q") (some "google") wAllOk [] ∧
    snapshotData "id1" "q" "google"
      (List.foldl addResult (resetStore [rOld]) [rOld])
      = ⟨"id1", "q", "google", [rOld]⟩ :=
  ⟨httpHandler_clears_store_and_snapshot_exact.1
     (some "q") (some "google") wAllOk [rOld] [] rfl rfl,
   httpHandler_clears_store_and_snapshot_exact.2 [rOld] [rOld]
     "id1" "q" "google"⟩

lemma withRetryAux_calls_pos {ε α : Type} (op : Nat → Except ε α) :
    ∀ m c, 0 < m → c < (withRetryAux op m c).2 := by
  intro m
  induction m with
  | zero => intro c h; exact absurd h (Nat.lt_irrefl 0)
  | succ r ih =>
    intro c _
    cases hop : op c with
    | ok v => simp [withRetryAux, hop]
    | error e =>
      by_cases hr : r = 0
      · simp [withRetryAux, hop, hr]
      · have := ih (c + 1) (Nat.pos_of_ne_zero hr)
        simp only [withRetryAux, hop, hr, if_false]
        omega

/-- C7 counterexample: a request whose `query` is a present-but-empty
string is rejected by the `!query` falsiness check with the
`"Query and engine are required"` 400 — the pipeline is never invoked
(no navigation attempt), contradicting both the claimed
missing-fields-only condition for that 400 and the claim that such a
request still reaches the pipeline. -/
theorem empty_query_rejected_by_validation_cex :
    searchHandler (some "") (some "google") wAllOk [rOld]
      = ⟨[.badRequest "Query and engine are required"], [rOld], 0⟩ :=
  rfl

/-- C7 (amended): the HTTP handler responds 400
`"Query and engine are required"` exactly when `query` or `engine` is
missing or the empty string (JS falsiness), never invoking the
pipeline; when both are non-empty it never sends that 400 (an
unrecognized engine gets the `"Invalid search engine"` 400 instead).
An empty query therefore never reaches the pipeline from the HTTP
endpoint, while the pipeline layer itself performs no validation: a
tool invocation with an empty query still attempts navigation at least
once. -/
theorem validation_rejects_missing_or_empty :
    (∀ (query engine : Option String) (w : World)
        (store : List ResultRecord),
      truthy query = false ∨ truthy engine = false →
        searchHandler query engine w store
          = ⟨[.badRequest "Query and engine are required"], store, 0⟩) ∧
    (∀ (query engine : Option String) (w : World)
        (store : List ResultRecord),
      truthy query = true → truthy engine = true →
        (searchHandler query engine w store).responses
          ≠ [.badRequest "Query and engine are required"]) ∧
    (∀ (w : World) (store : List ResultRecord),
      1 ≤ (toolHandler "search_google" "" w store).navCount) := by
  refine ⟨?_, ?_, ?_⟩
  · intro query engine w store h
    rcases h with h | h
    · simp [searchHandler, h]
    · simp [searchHandler, h]
  · intro query engine w store hq he
    rcases query with _ | q
    · simp [truthy] at hq
    rcases engine with _ | e
    · simp [truthy] at he
    have hq' : q.isEmpty = false := by simpa [truthy] using hq
    have he' : e.isEmpty = false := by simpa [truthy] using he
    rcases hrun : runEngine e q w with _ | res
    · simp [searchHandler, hq', he', truthy, hrun]
    · rcases res with msg | p
      · simp [searchHandler, hq', he', truthy, hrun]
      · rcases p with ⟨rows, store1⟩
        simp [searchHandler, hq', he', truthy, hrun]
  · intro w store
    have hpos := withRetryAux_calls_pos
      (fun k => performGoogleSearch "" (w.navGoogle k) w.googleEls w.now store)
      3 0 (by decide)
    rcases hw : withRetry
      (fun k => performGoogleSearch "" (w.navGoogle k) w.googleEls w.now store)
      3 with ⟨res, calls⟩
    have hc : 0 < calls := by
      rw [withRetry] at hw
      rw [hw] at hpos
      exact hpos
    cases res with
    | ok p =>
      rcases p with ⟨rows, store1⟩
      simp [toolHandler, toolCase, hw]
      omega
    | error e =>
      simp [toolHandler, toolCase, hw]
      omega

theorem validation_rejects_missing_or_empty_witness :
    searchHandler (some "") (some "google") wAllOk []
      = ⟨[.badRequest "Query and engine are required"], [], 0⟩ ∧
    (searchHandler (some "q") (some "google") wAllOk []).responses
      ≠ [.badRequest "Query and engine are required"] ∧
    1 ≤ (toolHandler "search_google" "" wAllOk []).navCount :=
  ⟨validation_rejects_missing_or_empty.1 (some "") (some "google") wAllOk []
     (Or.inl rfl),
   validation_rejects_missing_or_empty.2.1 (some "q") (some "google")
     wAllOk [] rfl rfl,
   validation_rejects_missing_or_empty.2.2 wAllOk []⟩

/-- C10: when both fields pass the presence check (present and
non-empty) but the engine is none of the four registered names, the
handler has already cleared the process-wide store before reaching the
`default` branch, so the `"Invalid search engine"` 400 leaves the store
empty — records from a previous request are lost, not preserved. -/
theorem invalid_engine_clears_store :
    ∀ (q e : String) (w : World) (store : List ResultRecord),
      truthy (some q) = true → truthy (some e) = true →
      e ≠ "google" → e ≠ "duckduckgo" → e ≠ "youtube" → e ≠ "pubmed" →
        searchHandler (some q) (some e) w store
          = ⟨[.badRequest "Invalid search engine"], [], 0⟩ := by
  intro q e w store hq he h1 h2 h3 h4
  have hq' : q.isEmpty = false := by simpa [truthy] using hq
  have he' : e.isEmpty = false := by simpa [truthy] using he
  simp [searchHandler, hq', he', truthy, runEngine, h1, h2, h3, h4]

theorem invalid_engine_clears_store_witness :
    searchHandler (some "climate") (some "bing") wAllOk [rOld]
      = ⟨[.badRequest "Invalid search engine"], [], 0⟩ :=
  invalid_engine_clears_store "climate" "bing" wAllOk [rOld]
    rfl rfl (by decide) (by decide) (by decide) (by decide)
